import Mathlib

/-!
Shallow embedding of the backend service in src/backend/app.py (a Flask app
persisting geolocation "points" to SQLite or, when configured, to a remote
PostgreSQL database via pg8000), together with theorems settling the frozen
claims about it.

Conventions of the embedding:
* The process environment is an association list of variable names to values;
  os.environ.get with a default and plain indexing (which raises KeyError)
  are modelled by total lookups into it.
* Python exceptions that can escape a handler are an explicit error type; the
  Flask framework turns any uncaught exception that is not an HTTPException
  into a 500 Internal Server Error response, which the wrapper functions
  flaskStatus and flaskBody model.
* The database is a single points table (an optional value: none when the
  table has not been created), holding a list of rows plus the next id the
  auto-increment key generator will assign. The insertion timestamp assigned
  by CURRENT_TIMESTAMP is an abstract clock value passed to the handler.
* Connection lifecycle is observed through an event trace (open and close
  events) emitted by each modelled call.
-/

set_option autoImplicit false

namespace Aware

/-- A JSON scalar value as it appears in request and response bodies. -/
inductive JVal where
  | jnull
  | jbool (b : Bool)
  | jint (n : Int)
  | jnum (q : ℚ)
  | jstr (s : String)
  deriving DecidableEq, Repr

/-- A JSON object: an association list from keys to scalar values. -/
abbrev JObj := List (String × JVal)

/-- The process environment: an association list of variable names to values. -/
abbrev Env := List (String × String)

/-- os.environ lookup returning an optional value. -/
def envLookup (env : Env) (k : String) : Option String :=
  List.lookup k env

/-- Python os.environ.get with a default value. -/
def envGetD (env : Env) (k d : String) : String :=
  (envLookup env k).getD d

/-- Python exceptions that can escape the modelled code. -/
inductive PyExc where
  | keyError (k : String)
  | valueError (s : String)
  | operationalError (s : String)
  | typeError (s : String)
  deriving DecidableEq, Repr

/-- Python indexing into os.environ: raises KeyError when the variable is
absent (app.py lines 20-23). -/
def envReq (env : Env) (k : String) : Except PyExc String :=
  match envLookup env k with
  | some v => Except.ok v
  | none => Except.error (PyExc.keyError k)

/-- The module-level globals of app.py, computed once at import time from the
environment (lines 12-13): DB_PATH defaults to "skytebane.db"; USE_SUPABASE
is the boolean test that the variable equals "1". -/
structure ModuleConfig where
  DB_PATH : String
  USE_SUPABASE : Bool
  deriving DecidableEq, Repr

/-- Module import of app.py: evaluates lines 12-13 against the environment at
load time and caches the results in module globals. -/
def loadModule (env : Env) : ModuleConfig :=
  { DB_PATH := envGetD env "DB_PATH" "skytebane.db"
  , USE_SUPABASE := envGetD env "USE_SUPABASE" "0" == "1" }

/-- A backend connection descriptor: either a pg8000 (remote PostgreSQL)
connection or a local SQLite connection on a file path. -/
inductive Conn where
  | pgConn (user password host database : String) (port : Int)
  | sqliteConn (path : String)
  deriving DecidableEq, Repr

/-- int(os.environ.get("SUPABASE_PORT", 5432)) from app.py line 24: the
default is already an int; a present value is parsed and raises ValueError
when it is not numeric. -/
def parsePort (env : Env) : Except PyExc Int :=
  match envLookup env "SUPABASE_PORT" with
  | none => Except.ok 5432
  | some s =>
    match s.toInt? with
    | some n => Except.ok n
    | none => Except.error (PyExc.valueError s)

/-- get_db_connection from app.py lines 16-31. The branch condition uses the
module globals (USE_SUPABASE cached at import) together with whether the
pg8000 import succeeded; the SUPABASE_* variables are read from the
environment at call time, raising KeyError when a required one is absent.
Otherwise it returns an SQLite connection on the cached DB_PATH. -/
def get_db_connection (cfg : ModuleConfig) (pg8000 : Bool) (env : Env) :
    Except PyExc Conn :=
  if cfg.USE_SUPABASE && pg8000 then do
    let user ← envReq env "SUPABASE_USER"
    let password ← envReq env "SUPABASE_PASSWORD"
    let host ← envReq env "SUPABASE_HOST"
    let database ← envReq env "SUPABASE_DB"
    let port ← parsePort env
    Except.ok (Conn.pgConn user password host database port)
  else
    Except.ok (Conn.sqliteConn cfg.DB_PATH)

/-- A stored row of the points table (schema of app.py lines 38-58): the
auto-assigned id, the four client-supplied columns, and the created_at
timestamp assigned by the backend at insertion time. -/
structure PointRow where
  id : Int
  latitude : JVal
  longitude : JVal
  category : JVal
  creator_id : JVal
  created_at : Int
  deriving DecidableEq, Repr

/-- Which backend dialect created the table (SQLite column types versus
PostgreSQL column types, app.py lines 38-58). -/
inductive SchemaKind where
  | sqliteSchema
  | pgSchema
  deriving DecidableEq, Repr

/-- The points table: its schema dialect, the next value of the
auto-increment key generator, and the stored rows in insertion order. -/
structure PointsTable where
  schemaKind : SchemaKind
  nextId : Int
  rows : List PointRow
  deriving DecidableEq, Repr

/-- The database state: the points table when it exists, none before
initialization. -/
structure DBState where
  pointsTable : Option PointsTable
  deriving DecidableEq, Repr

/-- Connection lifecycle events observed by the embedding. -/
inductive ConnEvent where
  | openConn
  | closeConn
  deriving DecidableEq, Repr

/-- init_db from app.py lines 34-60: opens a connection, issues the
backend-appropriate CREATE TABLE IF NOT EXISTS statement (a no-op when the
table already exists), commits and closes. The result is the new database
state and the connection-event trace. -/
def init_db (cfg : ModuleConfig) (pg8000 : Bool) (env : Env) (db : DBState) :
    Except PyExc (DBState × List ConnEvent) := do
  let _conn ← get_db_connection cfg pg8000 env
  let fresh : PointsTable :=
    { schemaKind :=
        if cfg.USE_SUPABASE && pg8000 then SchemaKind.pgSchema
        else SchemaKind.sqliteSchema
    , nextId := 1
    , rows := [] }
  let db2 : DBState :=
    match db.pointsTable with
    | some _ => db
    | none => { pointsTable := some fresh }
  Except.ok (db2, [ConnEvent.openConn, ConnEvent.closeConn])

/-- HTTP methods the /api/points route accepts (app.py line 63). -/
inductive Method where
  | httpGet
  | httpPost
  deriving DecidableEq, Repr

/-- Response bodies produced by the handlers: the local POST body with only
an id, the remote POST body with id and created_at, and the GET body, a JSON
array of row objects. -/
inductive RespBody where
  | objIdOnly (id : Int)
  | objIdCreated (id : Int) (created_at : Int)
  | arr (objs : List JObj)
  deriving DecidableEq, Repr

/-- dict(row) for an sqlite3.Row: one JSON object per row with every column
in storage order (app.py line 98). -/
def rowToObj (r : PointRow) : JObj :=
  [ ("id", JVal.jint r.id)
  , ("latitude", r.latitude)
  , ("longitude", r.longitude)
  , ("category", r.category)
  , ("creator_id", r.creator_id)
  , ("created_at", JVal.jint r.created_at) ]

/-- Python dict indexing into the parsed JSON body: raises KeyError when the
key is absent (app.py lines 69-72). -/
def keyLookup (o : JObj) (k : String) : Except PyExc JVal :=
  match List.lookup k o with
  | some v => Except.ok v
  | none => Except.error (PyExc.keyError k)

/-- Executing a statement against the points table when it may not exist:
sqlite3 and pg8000 raise an operational error on a missing table. -/
def tableOf (db : DBState) : Except PyExc PointsTable :=
  match db.pointsTable with
  | some t => Except.ok t
  | none => Except.error (PyExc.operationalError "no such table: points")

/-- The body of the points handler after the connection is open (app.py
lines 67-99): on POST it indexes the four required JSON fields in source
order, inserts one row (id from the key generator, created_at from the
clock), commits, and returns 201 with id and created_at on the remote
branch or id alone on the local branch; on GET it selects all rows and
builds dict(row) for each of them. The sqlite3.Row factory is installed
only on the SQLite connection (app.py line 30); a pg8000 connection yields
each row as a plain list of column values, so on the remote branch dict(row)
raises TypeError for the first row (the integer id is not a key-value pair)
— the comprehension only completes, with the empty array, when the table
has no rows. On the local branch every row serializes and GET returns 200
with the array. -/
def pointsCore (cfg : ModuleConfig) (pg8000 : Bool) (method : Method)
    (reqBody : JObj) (now : Int) (db : DBState) :
    Except PyExc ((Nat × RespBody) × DBState) := do
  match method with
  | Method.httpPost =>
    let lat ← keyLookup reqBody "latitude"
    let lon ← keyLookup reqBody "longitude"
    let category ← keyLookup reqBody "category"
    let creator_id ← keyLookup reqBody "creator_id"
    let t ← tableOf db
    let row : PointRow :=
      { id := t.nextId, latitude := lat, longitude := lon
      , category := category, creator_id := creator_id, created_at := now }
    let t2 : PointsTable :=
      { t with nextId := t.nextId + 1, rows := t.rows ++ [row] }
    let db2 : DBState := { pointsTable := some t2 }
    if cfg.USE_SUPABASE && pg8000 then
      Except.ok ((201, RespBody.objIdCreated row.id now), db2)
    else
      Except.ok ((201, RespBody.objIdOnly row.id), db2)
  | Method.httpGet =>
    let t ← tableOf db
    if cfg.USE_SUPABASE && pg8000 then
      match t.rows with
      | [] => Except.ok ((200, RespBody.arr []), db)
      | _ :: _ =>
        Except.error (PyExc.typeError
          "cannot convert dictionary update sequence element to a sequence")
    else
      Except.ok ((200, RespBody.arr (t.rows.map rowToObj)), db)

deriving instance DecidableEq for Except

/-- The outcome of one call to the points route: the Python-level result (a
status-and-body pair, or an uncaught exception), the database state after
the call, and the connection-event trace. -/
structure HandlerOut where
  result : Except PyExc (Nat × RespBody)
  db : DBState
  trace : List ConnEvent
  deriving DecidableEq, Repr

/-- The points route function from app.py lines 63-99: opens a connection
(line 65) and runs the handler body. No path of the function closes the
connection, so the trace never contains a close event. -/
def points (cfg : ModuleConfig) (pg8000 : Bool) (env : Env) (method : Method)
    (reqBody : JObj) (now : Int) (db : DBState) : HandlerOut :=
  match get_db_connection cfg pg8000 env with
  | Except.error e => { result := Except.error e, db := db, trace := [] }
  | Except.ok _ =>
    match pointsCore cfg pg8000 method reqBody now db with
    | Except.error e =>
      { result := Except.error e, db := db, trace := [ConnEvent.openConn] }
    | Except.ok (resp, db2) =>
      { result := Except.ok resp, db := db2, trace := [ConnEvent.openConn] }

/-- Flask response status: a returned pair keeps its status; an uncaught
exception that is not an HTTPException (KeyError, ValueError, database
errors) becomes a 500 Internal Server Error. -/
def flaskStatus (r : Except PyExc (Nat × RespBody)) : Nat :=
  match r with
  | Except.ok (s, _) => s
  | Except.error _ => 500

/-- Flask response body: the returned JSON body, or none for the framework
error page produced on an uncaught exception. -/
def flaskBody (r : Except PyExc (Nat × RespBody)) : Option RespBody :=
  match r with
  | Except.ok (_, b) => some b
  | Except.error _ => none

/-- Modelled from the spec: the repository's second service, the /api/posts
endpoint, is not present under src/ (src/backend/app.py only defines
/api/points). Per §3 a Post row has an auto-assigned id, required name,
current_lat and current_lng, optional (nullable) target_lat and target_lng,
and a backend-assigned created_at timestamp. -/
structure PostRow where
  id : Int
  name : JVal
  current_lat : JVal
  current_lng : JVal
  target_lat : JVal
  target_lng : JVal
  created_at : Int
  deriving DecidableEq, Repr

/-- Modelled from the spec: the posts table of the absent posts service,
with its auto-increment key generator and stored rows. -/
structure PostsTable where
  nextId : Int
  rows : List PostRow
  deriving DecidableEq, Repr

/-- Modelled from the spec: serialization of a Post row to a JSON object
with all columns, for the GET listing of §4.3. -/
def postRowToObj (r : PostRow) : JObj :=
  [ ("id", JVal.jint r.id)
  , ("name", r.name)
  , ("current_lat", r.current_lat)
  , ("current_lng", r.current_lng)
  , ("target_lat", r.target_lat)
  , ("target_lng", r.target_lng)
  , ("created_at", JVal.jint r.created_at) ]

/-- Modelled from the spec: the /api/posts request handler of §4.3 and §6,
absent from src/. POST requires name, current_lat and current_lng (absence
is a 400 client error with no write), defaults the optional target fields to
null, appends one row and returns 201 with the new id; GET returns 200 with
the JSON array of all Post objects. -/
def posts (method : Method) (reqBody : JObj) (now : Int) (t : PostsTable) :
    (Nat × Option RespBody) × PostsTable :=
  match method with
  | Method.httpPost =>
    match List.lookup "name" reqBody, List.lookup "current_lat" reqBody,
        List.lookup "current_lng" reqBody with
    | some name, some clat, some clng =>
      let row : PostRow :=
        { id := t.nextId, name := name, current_lat := clat
        , current_lng := clng
        , target_lat := (List.lookup "target_lat" reqBody).getD JVal.jnull
        , target_lng := (List.lookup "target_lng" reqBody).getD JVal.jnull
        , created_at := now }
      ((201, some (RespBody.objIdOnly t.nextId)),
        { nextId := t.nextId + 1, rows := t.rows ++ [row] })
    | _, _, _ => ((400, none), t)
  | Method.httpGet =>
    ((200, some (RespBody.arr (t.rows.map postRowToObj))), t)

/-- The ids currently stored in the points table. -/
def idsOf (t : PointsTable) : List Int :=
  t.rows.map (fun r => r.id)

/-- Well-formedness of the auto-increment key generator: every stored id is
below the next id to be assigned. -/
def wfTable (t : PointsTable) : Prop :=
  ∀ r ∈ t.rows, r.id < t.nextId

/-! Concrete fixtures used by counterexamples and witnesses. -/

/-- The module configuration obtained by importing app.py in an empty
environment: local SQLite backend on the default path. -/
def cfgLocal : ModuleConfig := loadModule []

/-- An environment that requests the remote backend and supplies every
required credential. -/
def envRemote : Env :=
  [ ("USE_SUPABASE", "1"), ("SUPABASE_USER", "u"), ("SUPABASE_PASSWORD", "p")
  , ("SUPABASE_HOST", "h"), ("SUPABASE_DB", "d") ]

/-- An empty points table in the local dialect (the table state right after
initialization on the local backend). -/
def tEmpty : PointsTable :=
  { schemaKind := SchemaKind.sqliteSchema, nextId := 1, rows := [] }

/-- A database state whose points table exists and is empty. -/
def dbInit : DBState := { pointsTable := some tEmpty }

/-- A sample stored row. -/
def sampleRow : PointRow :=
  { id := 1, latitude := JVal.jnum (599 / 10), longitude := JVal.jnum (107 / 10)
  , category := JVal.jstr "rail", creator_id := JVal.jstr "u1", created_at := 5 }

/-- A points table holding the single sample row. -/
def tOne : PointsTable :=
  { schemaKind := SchemaKind.sqliteSchema, nextId := 2, rows := [sampleRow] }

/-- A database state whose points table holds the single sample row. -/
def dbOne : DBState := { pointsTable := some tOne }

/-! Reduction lemmas for the Except monad used by the handler embedding. -/

@[simp]
theorem exceptBindOk {ε α β : Type} (a : α) (f : α → Except ε β) :
    (Except.ok a >>= f) = f a := rfl

@[simp]
theorem exceptBindError {ε α β : Type} (e : ε) (f : α → Except ε β) :
    ((Except.error e : Except ε α) >>= f) = Except.error e := rfl

/-- A POST body missing any of the four required fields makes the handler
body raise an exception before any insert executes. -/
theorem pointsCore_missing_key (cfg : ModuleConfig) (pg8000 : Bool)
    (reqBody : JObj) (now : Int) (db : DBState)
    (h : List.lookup "latitude" reqBody = none ∨
         List.lookup "longitude" reqBody = none ∨
         List.lookup "category" reqBody = none ∨
         List.lookup "creator_id" reqBody = none) :
    ∃ e, pointsCore cfg pg8000 Method.httpPost reqBody now db =
      Except.error e := by
  rcases l1 : List.lookup "latitude" reqBody with _ | v1
  · exact ⟨PyExc.keyError "latitude", by simp [pointsCore, keyLookup, l1]⟩
  · rcases l2 : List.lookup "longitude" reqBody with _ | v2
    · exact ⟨PyExc.keyError "longitude", by simp [pointsCore, keyLookup, l1, l2]⟩
    · rcases l3 : List.lookup "category" reqBody with _ | v3
      · exact ⟨PyExc.keyError "category",
          by simp [pointsCore, keyLookup, l1, l2, l3]⟩
      · rcases l4 : List.lookup "creator_id" reqBody with _ | v4
        · exact ⟨PyExc.keyError "creator_id",
            by simp [pointsCore, keyLookup, l1, l2, l3, l4]⟩
        · simp [l1, l2, l3, l4] at h

/-- Claim C1, counterexample: a POST to /api/points whose JSON body omits the
required field latitude produces a response with status 500, not the claimed
400 — the handler raises an uncaught KeyError, which Flask maps to a 500
Internal Server Error. -/
theorem C1_counterexample :
    flaskStatus (points cfgLocal false [] Method.httpPost
      [ ("longitude", JVal.jnum (107 / 10)), ("category", JVal.jstr "rail")
      , ("creator_id", JVal.jstr "u1") ] 0 dbInit).result = 500 ∧
    (500 : Nat) ≠ 400 := by
  constructor
  · rfl
  · decide

/-- Claim C1, amended: a POST to /api/points whose JSON body omits at least
one of the required fields (latitude, longitude, category, creator_id)
yields a response with status 500, because the uncaught KeyError is turned
into a server error by the framework, not into a 400 client error. -/
theorem C1_missing_field_is_500 (cfg : ModuleConfig) (pg8000 : Bool)
    (env : Env) (reqBody : JObj) (now : Int) (db : DBState)
    (h : List.lookup "latitude" reqBody = none ∨
         List.lookup "longitude" reqBody = none ∨
         List.lookup "category" reqBody = none ∨
         List.lookup "creator_id" reqBody = none) :
    flaskStatus (points cfg pg8000 env Method.httpPost reqBody now db).result
      = 500 := by
  rcases hc : get_db_connection cfg pg8000 env with e | c
  · simp [points, hc, flaskStatus]
  · obtain ⟨e2, he2⟩ := pointsCore_missing_key cfg pg8000 reqBody now db h
    simp [points, hc, he2, flaskStatus]

/-- Witness for C1: the amended theorem applied to a concrete request with an
empty JSON body. -/
theorem C1_witness :
    flaskStatus (points cfgLocal false [] Method.httpPost [] 0
      dbInit).result = 500 :=
  C1_missing_field_is_500 cfgLocal false [] [] 0 dbInit (Or.inl rfl)

/-- Claim C2, counterexample: a GET on the remote (pg8000) backend against a
table holding one row returns status 500, not the claimed 200 — the
sqlite3.Row factory is installed only on the SQLite connection, so dict(row)
raises an uncaught TypeError on a pg8000 row. -/
theorem C2_counterexample :
    flaskStatus (points (loadModule envRemote) true envRemote Method.httpGet
      [] 0 dbOne).result = 500 ∧
    (500 : Nat) ≠ 200 := by
  constructor
  · rfl
  · decide

/-- Claim C2, amended: a GET on /api/points selects all rows and, on the
local SQLite backend, returns 200 with a JSON array holding one object per
stored row with every column; on the remote pg8000 backend dict(row) raises
TypeError for any stored row, so GET returns 500 whenever the table is
non-empty and 200 with the empty array only when it is empty. On every path
the stored table is left unchanged. -/
theorem C2_get_local_ok_remote_error (cfg : ModuleConfig) (pg8000 : Bool)
    (env : Env) (reqBody : JObj) (now : Int) (db : DBState) (t : PointsTable)
    (c : Conn)
    (hc : get_db_connection cfg pg8000 env = Except.ok c)
    (ht : db.pointsTable = some t) :
    ((cfg.USE_SUPABASE && pg8000) = false →
      flaskStatus (points cfg pg8000 env Method.httpGet reqBody now db).result
          = 200 ∧
      flaskBody (points cfg pg8000 env Method.httpGet reqBody now db).result
          = some (RespBody.arr (t.rows.map rowToObj)) ∧
      (t.rows.map rowToObj).length = t.rows.length ∧
      (∀ o ∈ t.rows.map rowToObj, o.map Prod.fst =
        ["id", "latitude", "longitude", "category", "creator_id",
          "created_at"])) ∧
    ((cfg.USE_SUPABASE && pg8000) = true → t.rows ≠ [] →
      flaskStatus (points cfg pg8000 env Method.httpGet reqBody now db).result
          = 500) ∧
    ((cfg.USE_SUPABASE && pg8000) = true → t.rows = [] →
      flaskStatus (points cfg pg8000 env Method.httpGet reqBody now db).result
          = 200 ∧
      flaskBody (points cfg pg8000 env Method.httpGet reqBody now db).result
          = some (RespBody.arr [])) ∧
    (points cfg pg8000 env Method.httpGet reqBody now db).db = db := by
  refine ⟨?_, ?_, ?_, ?_⟩
  · intro hb
    refine ⟨?_, ?_, by simp, ?_⟩
    · simp [points, hc, pointsCore, tableOf, ht, hb, flaskStatus]
    · simp [points, hc, pointsCore, tableOf, ht, hb, flaskBody]
    · intro o ho
      rcases List.mem_map.mp ho with ⟨r, _, rfl⟩
      simp [rowToObj]
  · intro hb hrows
    rcases hr : t.rows with _ | ⟨r0, rest⟩
    · exact absurd hr hrows
    · simp [points, hc, pointsCore, tableOf, ht, hb, hr, flaskStatus]
  · intro hb hrows
    constructor
    · simp [points, hc, pointsCore, tableOf, ht, hb, hrows, flaskStatus]
    · simp [points, hc, pointsCore, tableOf, ht, hb, hrows, flaskBody]
  · by_cases hb : (cfg.USE_SUPABASE && pg8000) = true
    · rcases hr : t.rows with _ | ⟨r0, rest⟩
      · simp [points, hc, pointsCore, tableOf, ht, hb, hr]
      · simp [points, hc, pointsCore, tableOf, ht, hb, hr]
    · rw [Bool.not_eq_true] at hb
      simp [points, hc, pointsCore, tableOf, ht, hb]

/-- Witness for C2: the amended theorem applied to a concrete GET against
the one-row table, once on the local backend (success) and once on the
remote backend (TypeError path). -/
theorem C2_witness :
    flaskStatus (points cfgLocal false [] Method.httpGet [] 0 dbOne).result
        = 200 ∧
    flaskStatus (points (loadModule envRemote) true envRemote Method.httpGet
      [] 0 dbOne).result = 500 :=
  ⟨((C2_get_local_ok_remote_error cfgLocal false [] [] 0 dbOne tOne
      (Conn.sqliteConn "skytebane.db") rfl rfl).1 rfl).1,
   (C2_get_local_ok_remote_error (loadModule envRemote) true envRemote []
      0 dbOne tOne (Conn.pgConn "u" "p" "h" "d" 5432) rfl rfl).2.1 rfl
      (List.cons_ne_nil _ _)⟩

/-- Claim C3, counterexample: a concrete GET request opens a connection but
the handler's trace contains no close event — the connection is never
closed by the handler. -/
theorem C3_counterexample :
    ConnEvent.openConn ∈
      (points cfgLocal false [] Method.httpGet [] 0 dbInit).trace ∧
    ConnEvent.closeConn ∉
      (points cfgLocal false [] Method.httpGet [] 0 dbInit).trace := by
  have htr : (points cfgLocal false [] Method.httpGet [] 0 dbInit).trace =
      [ConnEvent.openConn] := rfl
  rw [htr]
  simp

/-- Claim C3, amended: every call to the points handler that obtains a
connection opens exactly one fresh connection, and no call ever closes its
connection on any exit path (only init_db closes the connection it opens). -/
theorem C3_never_closes (cfg : ModuleConfig) (pg8000 : Bool) (env : Env)
    (method : Method) (reqBody : JObj) (now : Int) (db : DBState) :
    ConnEvent.closeConn ∉
      (points cfg pg8000 env method reqBody now db).trace ∧
    ((∃ c, get_db_connection cfg pg8000 env = Except.ok c) →
      (points cfg pg8000 env method reqBody now db).trace =
        [ConnEvent.openConn]) := by
  rcases hc : get_db_connection cfg pg8000 env with e | c
  · constructor
    · simp [points, hc]
    · rintro ⟨c, hc2⟩
      exact absurd hc2 (by simp)
  · rcases hp : pointsCore cfg pg8000 method reqBody now db with e2 | pr
    · constructor
      · simp [points, hc, hp]
      · intro _
        simp [points, hc, hp]
    · rcases pr with ⟨resp, db2⟩
      constructor
      · simp [points, hc, hp]
      · intro _
        simp [points, hc, hp]

/-- Witness for C3: the amended theorem applied to a concrete GET request. -/
theorem C3_witness :
    (points cfgLocal false [] Method.httpGet [] 0 dbInit).trace =
      [ConnEvent.openConn] :=
  (C3_never_closes cfgLocal false [] Method.httpGet [] 0 dbInit).2
    ⟨Conn.sqliteConn "skytebane.db", rfl⟩

/-- Claim C4: the second service at /api/posts (modelled from the spec, as
the handler is absent from src/): a POST carrying the required fields name,
current_lat and current_lng returns 201 with the new id as body, and a GET
returns 200 with the JSON array of all Post objects, leaving the table
unchanged. -/
theorem C4_posts_service (reqBody : JObj) (now : Int) (t : PostsTable)
    (name clat clng : JVal)
    (h1 : List.lookup "name" reqBody = some name)
    (h2 : List.lookup "current_lat" reqBody = some clat)
    (h3 : List.lookup "current_lng" reqBody = some clng) :
    (posts Method.httpPost reqBody now t).1 =
      (201, some (RespBody.objIdOnly t.nextId)) ∧
    (posts Method.httpGet reqBody now t).1 =
      (200, some (RespBody.arr (t.rows.map postRowToObj))) ∧
    (posts Method.httpGet reqBody now t).2 = t := by
  refine ⟨?_, rfl, rfl⟩
  simp [posts, h1, h2, h3]

/-- Witness for C4: the theorem applied to a concrete POST body against an
empty posts table. -/
theorem C4_witness :
    (posts Method.httpPost
      [ ("name", JVal.jstr "Ramp A"), ("current_lat", JVal.jnum 1)
      , ("current_lng", JVal.jnum 2) ] 0
      { nextId := 1, rows := [] }).1 =
      (201, some (RespBody.objIdOnly 1)) :=
  (C4_posts_service
    [ ("name", JVal.jstr "Ramp A"), ("current_lat", JVal.jnum 1)
    , ("current_lng", JVal.jnum 2) ] 0 { nextId := 1, rows := [] }
    (JVal.jstr "Ramp A") (JVal.jnum 1) (JVal.jnum 2) rfl rfl rfl).1

/-- Claim C5, counterexample: an environment whose USE_SUPABASE equals "1"
(with all remote credentials present) in a process where the pg8000 import
failed still yields a local SQLite connection — the backend is not remote
"exactly when" the variable equals "1". -/
theorem C5_counterexample :
    envLookup envRemote "USE_SUPABASE" = some "1" ∧
    get_db_connection (loadModule envRemote) false envRemote =
      Except.ok (Conn.sqliteConn "skytebane.db") := by
  exact ⟨rfl, rfl⟩

/-- Claim C5, amended: get_db_connection takes the remote branch exactly
when the module-load value of USE_SUPABASE was "1" and the pg8000 import
succeeded; whenever that conjunction fails it returns the local SQLite
connection on the cached DB_PATH, and whenever it holds any successfully
returned connection is a pg8000 connection. -/
theorem C5_remote_iff_flag_and_pg (cfg : ModuleConfig) (pg8000 : Bool)
    (env : Env) :
    ((cfg.USE_SUPABASE && pg8000) = false →
      get_db_connection cfg pg8000 env =
        Except.ok (Conn.sqliteConn cfg.DB_PATH)) ∧
    ((cfg.USE_SUPABASE && pg8000) = true →
      ∀ c, get_db_connection cfg pg8000 env = Except.ok c →
        ∃ u pw h d po, c = Conn.pgConn u pw h d po) := by
  constructor
  · intro hb
    simp [get_db_connection, hb]
  · intro hb c hok
    simp only [get_db_connection, hb, if_true] at hok
    rcases e1 : envReq env "SUPABASE_USER" with k1 | u
    · rw [e1] at hok; simp at hok
    · rw [e1] at hok
      rcases e2 : envReq env "SUPABASE_PASSWORD" with k2 | pw
      · rw [e2] at hok; simp at hok
      · rw [e2] at hok
        rcases e3 : envReq env "SUPABASE_HOST" with k3 | h
        · rw [e3] at hok; simp at hok
        · rw [e3] at hok
          rcases e4 : envReq env "SUPABASE_DB" with k4 | d
          · rw [e4] at hok; simp at hok
          · rw [e4] at hok
            rcases e5 : parsePort env with k5 | po
            · rw [e5] at hok; simp at hok
            · rw [e5] at hok
              simp at hok
              exact ⟨u, pw, h, d, po, hok.symm⟩

/-- Witness for C5: the amended theorem applied to a local configuration
and, separately, the remote configuration with full credentials. -/
theorem C5_witness :
    get_db_connection cfgLocal false [] =
      Except.ok (Conn.sqliteConn "skytebane.db") ∧
    (∀ c, get_db_connection (loadModule envRemote) true envRemote =
        Except.ok c → ∃ u pw h d po, c = Conn.pgConn u pw h d po) :=
  ⟨(C5_remote_iff_flag_and_pg cfgLocal false []).1 rfl,
   (C5_remote_iff_flag_and_pg (loadModule envRemote) true envRemote).2 rfl⟩

/-- Claim C6, counterexample: with pg8000 available and a call-time
environment whose USE_SUPABASE is "1" with full credentials, the connection
is still local SQLite when the module was loaded under an empty environment
— the backend choice is cached from module load, not re-read per call. -/
theorem C6_counterexample :
    envLookup envRemote "USE_SUPABASE" = some "1" ∧
    get_db_connection (loadModule []) true envRemote =
      Except.ok (Conn.sqliteConn "skytebane.db") ∧
    get_db_connection (loadModule envRemote) true envRemote =
      Except.ok (Conn.pgConn "u" "p" "h" "d" 5432) := by
  exact ⟨rfl, rfl, rfl⟩

/-- Claim C6, amended: only the five SUPABASE_* connection parameters are
read from the environment at call time; the backend choice (USE_SUPABASE)
and DB_PATH come from the module globals cached at import. Two call-time
environments agreeing on those five variables give identical results under
the same cached configuration. -/
theorem C6_call_env_only_credentials (cfg : ModuleConfig) (pg8000 : Bool)
    (env1 env2 : Env)
    (hu : envLookup env1 "SUPABASE_USER" = envLookup env2 "SUPABASE_USER")
    (hp : envLookup env1 "SUPABASE_PASSWORD" =
          envLookup env2 "SUPABASE_PASSWORD")
    (hh : envLookup env1 "SUPABASE_HOST" = envLookup env2 "SUPABASE_HOST")
    (hd : envLookup env1 "SUPABASE_DB" = envLookup env2 "SUPABASE_DB")
    (hpo : envLookup env1 "SUPABASE_PORT" = envLookup env2 "SUPABASE_PORT") :
    get_db_connection cfg pg8000 env1 = get_db_connection cfg pg8000 env2 := by
  by_cases hb : (cfg.USE_SUPABASE && pg8000) = true
  · simp only [get_db_connection, hb, if_true, envReq, parsePort,
      hu, hp, hh, hd, hpo]
  · simp only [get_db_connection, hb, if_false, Bool.false_eq_true]

/-- Witness for C6: the amended theorem applied to two concrete call-time
environments that agree on the credential variables but differ elsewhere. -/
theorem C6_witness :
    get_db_connection cfgLocal false [("SUPABASE_USER", "u")] =
      get_db_connection cfgLocal false
        [("OTHER", "x"), ("SUPABASE_USER", "u")] :=
  C6_call_env_only_credentials cfgLocal false [("SUPABASE_USER", "u")]
    [("OTHER", "x"), ("SUPABASE_USER", "u")] rfl rfl rfl rfl rfl

/-- When the handler body raises, the database is left unchanged. -/
theorem points_db_of_core_error (cfg : ModuleConfig) (pg8000 : Bool)
    (env : Env) (method : Method) (reqBody : JObj) (now : Int) (db : DBState)
    (h : ∃ e, pointsCore cfg pg8000 method reqBody now db = Except.error e) :
    (points cfg pg8000 env method reqBody now db).db = db := by
  rcases h with ⟨e, he⟩
  rcases hc : get_db_connection cfg pg8000 env with e1 | c
  · simp [points, hc]
  · simp [points, hc, he]

/-- Claim C7: a POST to /api/points with all required fields present returns
201; on the remote branch the body carries the id and the created_at
timestamp, on the local branch only the id — yet on both branches the
stored row carries the insertion timestamp. -/
theorem C7_post_created (cfg : ModuleConfig) (pg8000 : Bool) (env : Env)
    (reqBody : JObj) (now : Int) (db : DBState) (t : PointsTable) (c : Conn)
    (v1 v2 v3 v4 : JVal)
    (hc : get_db_connection cfg pg8000 env = Except.ok c)
    (ht : db.pointsTable = some t)
    (h1 : List.lookup "latitude" reqBody = some v1)
    (h2 : List.lookup "longitude" reqBody = some v2)
    (h3 : List.lookup "category" reqBody = some v3)
    (h4 : List.lookup "creator_id" reqBody = some v4) :
    flaskStatus (points cfg pg8000 env Method.httpPost reqBody now db).result
        = 201 ∧
    ((cfg.USE_SUPABASE && pg8000) = true →
      flaskBody (points cfg pg8000 env Method.httpPost reqBody now db).result
        = some (RespBody.objIdCreated t.nextId now)) ∧
    ((cfg.USE_SUPABASE && pg8000) = false →
      flaskBody (points cfg pg8000 env Method.httpPost reqBody now db).result
        = some (RespBody.objIdOnly t.nextId)) ∧
    (points cfg pg8000 env Method.httpPost reqBody now db).db.pointsTable =
      some ({ t with
                nextId := t.nextId + 1,
                rows := t.rows ++
                  [{ id := t.nextId, latitude := v1, longitude := v2,
                     category := v3, creator_id := v4,
                     created_at := now }] }) := by
  by_cases hb : (cfg.USE_SUPABASE && pg8000) = true
  · refine ⟨?_, ?_, ?_, ?_⟩ <;>
      simp [points, hc, pointsCore, keyLookup, h1, h2, h3, h4, tableOf, ht,
        hb, flaskStatus, flaskBody]
  · rw [Bool.not_eq_true] at hb
    refine ⟨?_, ?_, ?_, ?_⟩ <;>
      simp [points, hc, pointsCore, keyLookup, h1, h2, h3, h4, tableOf, ht,
        hb, flaskStatus, flaskBody]

/-- Witness for C7: the theorem applied to a concrete valid POST on the
local backend against the empty table. -/
theorem C7_witness :
    flaskStatus (points cfgLocal false [] Method.httpPost
      [ ("latitude", JVal.jnum (599 / 10)), ("longitude", JVal.jnum (107 / 10))
      , ("category", JVal.jstr "rail"), ("creator_id", JVal.jstr "u1") ]
      5 dbInit).result = 201 :=
  (C7_post_created cfgLocal false []
    [ ("latitude", JVal.jnum (599 / 10)), ("longitude", JVal.jnum (107 / 10))
    , ("category", JVal.jstr "rail"), ("creator_id", JVal.jstr "u1") ]
    5 dbInit tEmpty (Conn.sqliteConn "skytebane.db")
    (JVal.jnum (599 / 10)) (JVal.jnum (107 / 10)) (JVal.jstr "rail")
    (JVal.jstr "u1") rfl rfl rfl rfl rfl rfl).1

/-- Claim C8: a POST to /api/points whose JSON body omits a required field
inserts no row — the database state after the failed request equals the
state before it. -/
theorem C8_no_partial_write (cfg : ModuleConfig) (pg8000 : Bool) (env : Env)
    (reqBody : JObj) (now : Int) (db : DBState)
    (h : List.lookup "latitude" reqBody = none ∨
         List.lookup "longitude" reqBody = none ∨
         List.lookup "category" reqBody = none ∨
         List.lookup "creator_id" reqBody = none) :
    (points cfg pg8000 env Method.httpPost reqBody now db).db = db :=
  points_db_of_core_error cfg pg8000 env Method.httpPost reqBody now db
    (pointsCore_missing_key cfg pg8000 reqBody now db h)

/-- Witness for C8: the theorem applied to a concrete POST body missing the
latitude field. -/
theorem C8_witness :
    (points cfgLocal false [] Method.httpPost
      [("longitude", JVal.jnum (107 / 10))] 0 dbOne).db = dbOne :=
  C8_no_partial_write cfgLocal false []
    [("longitude", JVal.jnum (107 / 10))] 0 dbOne (Or.inl rfl)

/-- Claim C9: every request preserves the stored rows — the rows after any
call extend the rows before it, any appended row carries an id not already
present, the key generator stays well formed, distinctness of ids is
preserved, and a GET leaves the database unchanged. -/
theorem C9_rows_preserved (cfg : ModuleConfig) (pg8000 : Bool) (env : Env)
    (method : Method) (reqBody : JObj) (now : Int) (db : DBState)
    (t : PointsTable) (ht : db.pointsTable = some t) (hwf : wfTable t) :
    ∃ t2, (points cfg pg8000 env method reqBody now db).db.pointsTable
        = some t2 ∧
      (∃ s, t2.rows = t.rows ++ s ∧ ∀ r ∈ s, r.id ∉ idsOf t) ∧
      wfTable t2 ∧
      ((idsOf t).Nodup → (idsOf t2).Nodup) ∧
      (method = Method.httpGet →
        (points cfg pg8000 env method reqBody now db).db = db) := by
  have hfresh : t.nextId ∉ idsOf t := by
    intro hmem
    rcases List.mem_map.mp hmem with ⟨r, hr, hid⟩
    have hlt := hwf r hr
    rw [hid] at hlt
    exact lt_irrefl _ hlt
  rcases hc : get_db_connection cfg pg8000 env with e | c
  · have hdb : (points cfg pg8000 env method reqBody now db).db = db := by
      simp [points, hc]
    exact ⟨t, by rw [hdb, ht], ⟨[], by simp, by simp⟩, hwf, fun h => h,
      fun _ => hdb⟩
  · cases method with
    | httpGet =>
      have hdb : (points cfg pg8000 env Method.httpGet reqBody now db).db
          = db := by
        by_cases hb : (cfg.USE_SUPABASE && pg8000) = true
        · rcases hr : t.rows with _ | ⟨r0, rest⟩
          · simp [points, hc, pointsCore, tableOf, ht, hb, hr]
          · simp [points, hc, pointsCore, tableOf, ht, hb, hr]
        · rw [Bool.not_eq_true] at hb
          simp [points, hc, pointsCore, tableOf, ht, hb]
      exact ⟨t, by rw [hdb, ht], ⟨[], by simp, by simp⟩, hwf, fun h => h,
        fun _ => hdb⟩
    | httpPost =>
      rcases l1 : List.lookup "latitude" reqBody with _ | v1
      · have hdb := points_db_of_core_error cfg pg8000 env Method.httpPost
          reqBody now db
          (pointsCore_missing_key cfg pg8000 reqBody now db (Or.inl l1))
        exact ⟨t, by rw [hdb, ht], ⟨[], by simp, by simp⟩, hwf, fun h => h,
          fun h => by simp at h⟩
      · rcases l2 : List.lookup "longitude" reqBody with _ | v2
        · have hdb := points_db_of_core_error cfg pg8000 env Method.httpPost
            reqBody now db
            (pointsCore_missing_key cfg pg8000 reqBody now db
              (Or.inr (Or.inl l2)))
          exact ⟨t, by rw [hdb, ht], ⟨[], by simp, by simp⟩, hwf, fun h => h,
            fun h => by simp at h⟩
        · rcases l3 : List.lookup "category" reqBody with _ | v3
          · have hdb := points_db_of_core_error cfg pg8000 env Method.httpPost
              reqBody now db
              (pointsCore_missing_key cfg pg8000 reqBody now db
                (Or.inr (Or.inr (Or.inl l3))))
            exact ⟨t, by rw [hdb, ht], ⟨[], by simp, by simp⟩, hwf, fun h => h,
              fun h => by simp at h⟩
          · rcases l4 : List.lookup "creator_id" reqBody with _ | v4
            · have hdb := points_db_of_core_error cfg pg8000 env
                Method.httpPost reqBody now db
                (pointsCore_missing_key cfg pg8000 reqBody now db
                  (Or.inr (Or.inr (Or.inr l4))))
              exact ⟨t, by rw [hdb, ht], ⟨[], by simp, by simp⟩, hwf,
                fun h => h, fun h => by simp at h⟩
            · refine ⟨{ t with
                  nextId := t.nextId + 1,
                  rows := t.rows ++
                    [{ id := t.nextId, latitude := v1, longitude := v2,
                       category := v3, creator_id := v4,
                       created_at := now }] },
                ?_, ?_, ?_, ?_, ?_⟩
              · by_cases hb : (cfg.USE_SUPABASE && pg8000) = true
                · simp [points, hc, pointsCore, keyLookup, l1, l2, l3, l4,
                    tableOf, ht, hb]
                · rw [Bool.not_eq_true] at hb
                  simp [points, hc, pointsCore, keyLookup, l1, l2, l3, l4,
                    tableOf, ht, hb]
              · refine ⟨[{
                    id := t.nextId, latitude := v1, longitude := v2,
                    category := v3, creator_id := v4, created_at := now }],
                  rfl, ?_⟩
                intro r hr
                rw [List.mem_singleton] at hr
                subst hr
                exact hfresh
              · intro r hr
                rcases List.mem_append.mp hr with hin | hin
                · exact lt_trans (hwf r hin) (lt_add_one t.nextId)
                · rw [List.mem_singleton] at hin
                  subst hin
                  exact lt_add_one t.nextId
              · intro nd
                have hids : idsOf ({ t with
                      nextId := t.nextId + 1,
                      rows := t.rows ++
                        [{ id := t.nextId, latitude := v1, longitude := v2,
                           category := v3, creator_id := v4,
                           created_at := now }] }) =
                    idsOf t ++ [t.nextId] := by
                  simp [idsOf]
                rw [hids]
                refine nd.append (List.nodup_singleton _) ?_
                intro a ha hmem
                rw [List.mem_singleton] at hmem
                subst hmem
                exact hfresh ha
              · intro h
                simp at h

/-- Witness for C9: the theorem applied to a concrete valid POST against the
table holding one row. -/
theorem C9_witness :
    ∃ t2, (points cfgLocal false [] Method.httpPost
        [ ("latitude", JVal.jnum 1), ("longitude", JVal.jnum 2)
        , ("category", JVal.jstr "x"), ("creator_id", JVal.jstr "u2") ]
        7 dbOne).db.pointsTable = some t2 ∧
      (∃ s, t2.rows = tOne.rows ++ s ∧ ∀ r ∈ s, r.id ∉ idsOf tOne) ∧
      wfTable t2 ∧
      ((idsOf tOne).Nodup → (idsOf t2).Nodup) ∧
      (Method.httpPost = Method.httpGet →
        (points cfgLocal false [] Method.httpPost
          [ ("latitude", JVal.jnum 1), ("longitude", JVal.jnum 2)
          , ("category", JVal.jstr "x"), ("creator_id", JVal.jstr "u2") ]
          7 dbOne).db = dbOne) :=
  C9_rows_preserved cfgLocal false [] Method.httpPost
    [ ("latitude", JVal.jnum 1), ("longitude", JVal.jnum 2)
    , ("category", JVal.jstr "x"), ("creator_id", JVal.jstr "u2") ]
    7 dbOne tOne rfl
    (by intro r hr; rw [show tOne.rows = [sampleRow] from rfl,
          List.mem_singleton] at hr; subst hr; decide)

/-- Claim C10: schema initialization is idempotent — whenever init_db
succeeds, running it again from the resulting state succeeds and returns
that same state (the create-table statement is an if-not-exists no-op), so
no duplicate points table can arise. -/
theorem C10_init_idempotent (cfg : ModuleConfig) (pg8000 : Bool) (env : Env)
    (db db2 : DBState) (tr : List ConnEvent)
    (h : init_db cfg pg8000 env db = Except.ok (db2, tr)) :
    init_db cfg pg8000 env db2 = Except.ok (db2, tr) := by
  rcases hc : get_db_connection cfg pg8000 env with e | c
  · simp [init_db, hc] at h
  · rcases hdb : db.pointsTable with _ | p
    · simp [init_db, hc, hdb] at h
      obtain ⟨h1, h2⟩ := h
      subst h1
      subst h2
      simp [init_db, hc]
    · simp [init_db, hc, hdb] at h
      obtain ⟨h1, h2⟩ := h
      subst h1
      subst h2
      simp [init_db, hc, hdb]

/-- Witness for C10: the theorem applied to initialization from the empty
database on the local backend. -/
theorem C10_witness :
    init_db cfgLocal false [] dbInit =
      Except.ok (dbInit, [ConnEvent.openConn, ConnEvent.closeConn]) :=
  C10_init_idempotent cfgLocal false [] { pointsTable := none } dbInit
    [ConnEvent.openConn, ConnEvent.closeConn] rfl

end Aware
